import Mathlib

/-!
Verification development for the review-based rating aggregation core of the
Video_reviews repository.  The definitions below are shallow embeddings of
`src/services/sentiment_analyzer.py` (class `SentimentAnalyzer`, which always
runs with `classifier = None`, hence along `_simple_sentiment_analysis`) and of
the rating part of `src/services/tmdb_service.py` (`TMDBService`,
methods `calculate_review_based_rating`, `_calculate_comprehensive_rating`,
`_calculate_consistency_score`, `_calculate_quantity_weight`,
`_calculate_intensity_score`, `_assess_confidence`).

Python floats are modelled by exact rationals; `round(x, d)` is modelled by
exact decimal rounding with ties to even (CPython's rounding mode).  Python
text is modelled as `List Char` (Python slices and `len` count code points).
-/

namespace VR

/-- Python text, as a list of code points. -/
abbrev Text := List Char

/-- The apostrophe character (used by the English negation lexicon). -/
def apos : Char := Char.ofNat 39

/-- Helper to build a keyword containing an apostrophe, e.g. `don't`. -/
def withApos (a b : String) : Text := a.data ++ apos :: b.data

/-- Python `str.lower()`.  The source lexicons and inputs mix ASCII and CJK;
CJK characters are unaffected by lowercasing, so ASCII lowering coincides with
Python's Unicode lowering on this material. -/
def lowerText (t : Text) : Text := t.map Char.toLower

/-- Python `str.strip()`: drop whitespace from both ends. -/
def stripText (t : Text) : Text :=
  ((t.dropWhile Char.isWhitespace).reverse.dropWhile Char.isWhitespace).reverse

/-- Python `str.find(pat)` restricted to the case of interest: the index of the
first occurrence of `pat` in `s`, or `none` when `pat` does not occur
(Python returns `-1` there; the caller below only uses `find` after an `in`
test, matched here by the `Option`). -/
def findSub (pat : Text) : Text → Option Nat
  | [] => if pat.isEmpty then some 0 else none
  | c :: rest =>
    if pat.isPrefixOf (c :: rest) then some 0
    else (findSub pat rest).map (· + 1)

/-- Python `pat in s` substring test. -/
def containsSub (pat s : Text) : Bool := (findSub pat s).isSome

/-- Positive keyword lexicon of `_simple_sentiment_analysis` (a Python set
literal; duplicate entries of the literal collapse, so each keyword is listed
once here; iteration order of the set is irrelevant because the scores below
are order-independent sums). -/
def positiveKeywords : List Text :=
  (["好", "棒", "精彩", "完美", "经典", "出色", "优秀", "感人", "震撼",
    "好看", "不错", "喜欢", "推荐", "值得", "满意", "开心", "快乐",
    "享受", "自然", "真实", "生动", "紧凑", "巧妙", "用心",
    "爱", "最爱", "最佳", "杰作", "神作", "超赞", "牛逼", "厉害",
    "优美", "深刻", "精彩绝伦", "无与伦比", "叹为观止", "拍手叫好",
    "过瘾", "爽", "美丽", "华丽", "精致", "精彩纷呈",
    "太精彩了", "真的很好", "非常精彩", "特别棒", "强烈推荐", "太棒了",
    "非常好", "特别精彩", "非常棒", "太赞了", "真的很棒", "非常出色",
    "极为精彩", "相当精彩", "极为出色", "非常优秀", "特别优秀",
    "great", "excellent", "amazing", "wonderful", "fantastic", "brilliant",
    "perfect", "masterpiece", "superb", "outstanding", "magnificent",
    "beautiful", "love", "loved", "best", "incredible", "awesome",
    "good", "nice", "enjoyed", "enjoyable", "impressed", "impressive",
    "touching", "moving", "powerful", "strong", "remarkable",
    "absolutely", "really", "very", "highly", "truly", "genuinely",
    "changed", "life", "greatest", "ever", "stand", "time", "test"] :
    List String).map String.data

/-- Negative keyword lexicon of `_simple_sentiment_analysis` (set literal,
deduplicated as above; `don't` is built with `withApos`). -/
def negativeKeywords : List Text :=
  ((["差", "烂", "糟糕", "垃圾", "失望", "后悔", "无聊", "难看", "不行",
    "不好", "一般", "普通", "尴尬", "做作", "夸张", "生硬", "老套",
    "俗套", "拖沓", "混乱", "牵强", "空洞", "乏味", "单调",
    "讨厌", "恶心", "垃圾片", "烂片", "看不下去",
    "浪费时间", "毁三观", "催眠", "平庸", "拙劣", "粗糙", "低劣",
    "无趣", "枯燥", "冗长", "松散", "混乱不堪",
    "真的很差", "非常糟糕", "特别差", "太烂了", "完全浪费时间", "非常失望",
    "特别糟糕", "极为糟糕", "相当差", "非常差", "极差", "太差了", "完全不推荐",
    "非常难看", "特别难看", "极为失望", "相当糟糕", "非常后悔",
    "bad", "terrible", "awful", "horrible", "disappointing", "disappointed",
    "waste", "boring", "bored", "poor", "worst", "hate", "hated",
    "dislike", "disliked", "mediocre", "predictable", "ridiculous",
    "stupid", "dumb", "sucks", "sucked", "crap", "trash", "garbage",
    "overrated", "disgusting", "annoying", "frustrating", "weak",
    "absolutely", "completely", "time", "money", "dont",
    "bother", "watching", "understand", "why", "people", "love"] :
    List String).map String.data) ++ [withApos "don" "t"]

/-- Intensifier lexicon of `_simple_sentiment_analysis` (set literal,
deduplicated). -/
def intensifierWords : List Text :=
  (["非常", "特别", "极其", "太", "真的", "很", "相当", "十分",
    "超级", "极度", "确实", "实在",
    "过于", "太过", "尤其", "格外",
    "very", "really", "so", "extremely", "absolutely", "completely",
    "totally", "quite", "rather", "pretty", "fairly", "highly",
    "truly", "genuinely"] : List String).map String.data

/-- Negation-word lexicon of `_simple_sentiment_analysis` (set literal;
the apostrophe variants are built with `withApos`). -/
def negationWords : List Text :=
  ((["不", "没", "无", "别", "未", "毫无", "完全没有",
    "not", "no", "never", "none", "nothing", "nobody", "nowhere",
    "neither", "nor", "dont", "doesnt",
    "didnt", "wont", "wouldnt",
    "cant", "couldnt", "shouldnt"] : List String).map String.data)
  ++ [withApos "don" "t", withApos "doesn" "t", withApos "didn" "t",
      withApos "won" "t", withApos "wouldn" "t", withApos "can" "t",
      withApos "couldn" "t", withApos "shouldn" "t"]

/-- Contribution of one lexicon keyword to its polarity tally, mirroring one
iteration of the keyword loops of `_simple_sentiment_analysis`: a keyword not
occurring contributes 0; an occurring keyword whose 8-character preceding
window is (essentially only) a negation word contributes -1; otherwise it
contributes +1, plus +0.5 when an intensifier occurs in the window. -/
def keywordDelta (textLower : Text) (keyword : Text) : ℚ :=
  match findSub keyword textLower with
  | none => 0
  | some keywordPos =>
    let startPos := keywordPos - 8
    let precedingText := (textLower.take keywordPos).drop startPos
    let negationFound := negationWords.any fun neg =>
      containsSub neg precedingText &&
        decide ((stripText precedingText).length ≤ neg.length + 2)
    if negationFound then -1
    else 1 + (if intensifierWords.any fun w => containsSub w precedingText
              then (1 : ℚ) / 2 else 0)

/-- `SentimentAnalyzer._simple_sentiment_analysis`: lexicon tallies, their
difference, then normalization by the total lexicon size, a 12x amplification,
and a clamp to [-1, 1]. -/
def simpleSentimentAnalysis (text : Text) : ℚ :=
  let textLower := lowerText text
  let positiveScore := (positiveKeywords.map (keywordDelta textLower)).sum
  let negativeScore := (negativeKeywords.map (keywordDelta textLower)).sum
  let totalScore := positiveScore - negativeScore
  if totalScore = 0 then 0
  else
    let maxScore : ℚ := ((positiveKeywords.length + negativeKeywords.length : ℕ) : ℚ)
    if 0 < maxScore then
      let normalized := totalScore / maxScore
      let enhancedScore := normalized * 12
      max (min enhancedScore 1) (-1)
    else 0

/-- `SentimentAnalyzer.analyze`: empty or whitespace-only text is neutral
(0.0); otherwise (`classifier` is always `None`) the keyword analyzer runs. -/
def analyze (text : Text) : ℚ :=
  if text.isEmpty || (stripText text).isEmpty then 0
  else simpleSentimentAnalysis text

/-- Rounding of an exact rational to an integer with ties to even, the rounding
mode of Python's built-in `round`. -/
def roundHalfEven (x : ℚ) : ℤ :=
  let f := ⌊x⌋
  let r := x - f
  if r < 1 / 2 then f
  else if 1 / 2 < r then f + 1
  else if f % 2 = 0 then f else f + 1

/-- Python `round(x, d)` on the exact rational model. -/
def pyRound (d : ℕ) (x : ℚ) : ℚ := (roundHalfEven (x * 10 ^ d) : ℚ) / 10 ^ d

/-- The guarded quotient `a / total if total > 0 else 0` used by
`_calculate_comprehensive_rating` for positive/negative/neutral shares. -/
def fracOf (a total : ℕ) : ℚ := if total > 0 then (a : ℚ) / total else 0

/-- The audience-liking sub-score of `_calculate_comprehensive_rating`
(its step 1), piecewise in the positive share. -/
def audienceScore (positiveShare : ℚ) : ℚ :=
  if positiveShare ≥ 0.9 then 9.0 + (positiveShare - 0.9) * 10
  else if positiveShare ≥ 0.8 then 8.0 + (positiveShare - 0.8) * 10
  else if positiveShare ≥ 0.7 then 7.0 + (positiveShare - 0.7) * 10
  else if positiveShare ≥ 0.6 then 6.0 + (positiveShare - 0.6) * 10
  else if positiveShare ≥ 0.5 then 5.0 + (positiveShare - 0.5) * 10
  else positiveShare * 10

/-- `TMDBService._calculate_consistency_score` (the third argument,
the list of sentiment scores, is accepted but never read by the source). -/
def consistencyScore (positiveShare negativeShare : ℚ) (_sentimentResults : List ℚ) : ℚ :=
  if positiveShare ≥ 0.8 ∧ negativeShare ≤ 0.1 then 9.0
  else if positiveShare ≥ 0.7 ∧ negativeShare ≤ 0.15 then 8.0
  else if positiveShare ≥ 0.6 ∧ negativeShare ≤ 0.2 then 7.0
  else if positiveShare ≥ 0.5 then 6.0
  else if positiveShare ≥ 0.4 then 5.0
  else max (4.0 - negativeShare * 5) 1.0

/-- `TMDBService._calculate_quantity_weight`. -/
def quantityWeight (totalReviews : ℕ) : ℚ :=
  if totalReviews ≥ 100 then 1.0
  else if totalReviews ≥ 50 then 0.95
  else if totalReviews ≥ 20 then 0.9
  else if totalReviews ≥ 10 then 0.85
  else if totalReviews ≥ 5 then 0.8
  else 0.7

/-- The sample variance `sum((x - mean)^2) / (n - 1)` underlying Python's
`statistics.stdev` (which is its square root). -/
def sampleVariance (sentimentResults : List ℚ) : ℚ :=
  let m := sentimentResults.sum / sentimentResults.length
  ((sentimentResults.map fun x => (x - m) ^ 2).sum) / ((sentimentResults.length : ℚ) - 1)

/-- `TMDBService._calculate_intensity_score`.  The source compares
`statistics.stdev(sentiment_results) < 0.2` (with the stdev taken as 0 for a
singleton); both sides are nonnegative, so the comparison is encoded on squares
as `sampleVariance < 0.04 = 1/25`, which avoids irrational square roots. -/
def intensityScore (sentimentResults : List ℚ) : ℚ :=
  if sentimentResults.isEmpty then 5.0
  else
    let avgSentiment := |sentimentResults.sum / sentimentResults.length|
    let lowSpread : Bool :=
      if sentimentResults.length > 1 then decide (sampleVariance sentimentResults < 1 / 25)
      else true
    let intensity : ℚ :=
      if avgSentiment ≥ 0.7 then 9.0
      else if avgSentiment ≥ 0.5 then 8.0
      else if avgSentiment ≥ 0.3 then 7.0
      else if avgSentiment ≥ 0.15 then 6.0
      else 5.0
    let intensity := if lowSpread then intensity + 0.5 else intensity
    min intensity 10.0

/-- `TMDBService._assess_confidence` (the negative share is accepted but never
read by the source). -/
def assessConfidence (totalReviews : ℕ) (positiveShare _negativeShare : ℚ) : String :=
  if totalReviews ≥ 50 ∧ positiveShare ≥ 0.7 then "高"
  else if totalReviews ≥ 20 ∧ positiveShare ≥ 0.6 then "中高"
  else if totalReviews ≥ 10 then "中等"
  else if totalReviews ≥ 5 then "中低"
  else "低"

/-- The per-component breakdown dict built by
`_calculate_comprehensive_rating`.  `positiveFrac`/`negativeFrac` are the
source's `positive_ratio`/`negative_ratio` percentage entries; the purely
presentational `formula` string entry is not modelled. -/
structure RatingBreakdown where
  audience_score : ℚ
  consistency_score : ℚ
  intensity_score : ℚ
  quantity_weight : ℚ
  positiveFrac : ℚ
  negativeFrac : ℚ

/-- The dict returned by `_calculate_comprehensive_rating`. -/
structure CompRating where
  final_rating : ℚ
  breakdown : RatingBreakdown
  confidence : String

/-- `TMDBService._calculate_comprehensive_rating`. -/
def comprehensiveRating (positive _neutral negative totalReviews : ℕ)
    (sentimentResults : List ℚ) : CompRating :=
  let positiveShare := fracOf positive totalReviews
  let negativeShare := fracOf negative totalReviews
  let audience := audienceScore positiveShare
  let consistency := consistencyScore positiveShare negativeShare sentimentResults
  let qw := quantityWeight totalReviews
  let intens := intensityScore sentimentResults
  let baseRating := audience * 0.6 + consistency * 0.25 + intens * 0.15
  let finalRating := min (max (baseRating * qw) 0) 10
  let confidence := assessConfidence totalReviews positiveShare negativeShare
  { final_rating := pyRound 1 finalRating
    breakdown :=
      { audience_score := pyRound 2 audience
        consistency_score := pyRound 2 consistency
        intensity_score := pyRound 2 intens
        quantity_weight := pyRound 2 qw
        positiveFrac := pyRound 1 (positiveShare * 100)
        negativeFrac := pyRound 1 (negativeShare * 100) }
    confidence := confidence }

/-- One fetched review; only its `content` text participates in the rating
pipeline (`review.get('content', '')`, so a missing field is empty text). -/
structure Review where
  content : Text

/-- The `sentiment_distribution` entry of the result dict. -/
structure SentimentDistribution where
  positive : ℕ
  neutral : ℕ
  negative : ℕ

/-- The dict returned by `calculate_review_based_rating`; the presentational
`reviews_sample` entry is not modelled, and the empty breakdown dict of the
two degenerate branches is modelled by `none`. -/
structure ReviewBasedRating where
  rating : ℚ
  review_count : ℕ
  sentiment_distribution : SentimentDistribution
  average_sentiment : ℚ
  rating_breakdown : Option RatingBreakdown
  confidence_level : String

/-- `TMDBService.calculate_review_based_rating`, given the already-fetched
review batch (fetching is the external adapter's concern). -/
def calculateReviewBasedRating (reviews : List Review) : ReviewBasedRating :=
  if reviews.isEmpty then
    { rating := 0, review_count := 0
      sentiment_distribution := ⟨0, 0, 0⟩
      average_sentiment := 0, rating_breakdown := none
      confidence_level := "无数据" }
  else
    let sentimentResults :=
      (reviews.filter fun r => !r.content.isEmpty).map fun r => analyze r.content
    if sentimentResults.isEmpty then
      { rating := 0, review_count := reviews.length
        sentiment_distribution := ⟨0, 0, 0⟩
        average_sentiment := 0, rating_breakdown := none
        confidence_level := "无情感数据" }
    else
      let positive := sentimentResults.countP fun s => decide (s > 0.1)
      let neutral := sentimentResults.countP fun s => decide (-0.1 ≤ s ∧ s ≤ 0.1)
      let negative := sentimentResults.countP fun s => decide (s < -0.1)
      let totalReviews := sentimentResults.length
      let ratingComponents :=
        comprehensiveRating positive neutral negative totalReviews sentimentResults
      { rating := ratingComponents.final_rating
        review_count := reviews.length
        sentiment_distribution := ⟨positive, neutral, negative⟩
        average_sentiment := pyRound 3 (sentimentResults.sum / sentimentResults.length)
        rating_breakdown := some ratingComponents.breakdown
        confidence_level := ratingComponents.confidence }

/-- The audience score exactly as worded by the specification: anchors at
share thresholds 0.5/0.6/0.7/0.8/0.9 mapping to base scores 5/6/7/8/9 with the
excess share within the band scaled by 10, and `share * 10` below 0.5. -/
def specAudienceScore (r : ℚ) : ℚ :=
  if r < 0.5 then r * 10
  else if r < 0.6 then 5 + (r - 0.5) * 10
  else if r < 0.7 then 6 + (r - 0.6) * 10
  else if r < 0.8 then 7 + (r - 0.7) * 10
  else if r < 0.9 then 8 + (r - 0.8) * 10
  else 9 + (r - 0.9) * 10

/-- The quantity weight exactly as worded by the specification: a step
function of the review count with steps at 100/50/20/10/5. -/
def specQuantityWeight (totalReviews : ℕ) : ℚ :=
  if totalReviews ≥ 100 then 1.0
  else if totalReviews ≥ 50 then 0.95
  else if totalReviews ≥ 20 then 0.9
  else if totalReviews ≥ 10 then 0.85
  else if totalReviews ≥ 5 then 0.8
  else 0.7

/-- Concrete sentiment-score list used as an input witnessing the divergence
between the final rating and the formula re-evaluated on the rounded
breakdown entries: 2 positive, 4 neutral, 1 negative scores. -/
def ssC1 : List ℚ := [3 / 4, 3 / 4, 0, 0, 0, 0, -1 / 4]

/-- Concrete sentiment-score list for the 60-review scenario:
48 positive, 6 neutral, 6 negative scores. -/
def ssC5 : List ℚ :=
  List.replicate 48 (1 / 2) ++ List.replicate 6 0 ++ List.replicate 6 (-1 / 2)

/-! Helper lemmas. -/

theorem roundHalfEven_ge_floor (x : ℚ) : ⌊x⌋ ≤ roundHalfEven x := by
  simp only [roundHalfEven]
  split_ifs <;> omega

theorem roundHalfEven_le_floor_add_one (x : ℚ) : roundHalfEven x ≤ ⌊x⌋ + 1 := by
  simp only [roundHalfEven]
  split_ifs <;> omega

theorem roundHalfEven_mono {x y : ℚ} (h : x ≤ y) : roundHalfEven x ≤ roundHalfEven y := by
  have hf : ⌊x⌋ ≤ ⌊y⌋ := Int.floor_le_floor h
  rcases eq_or_lt_of_le hf with heq | hlt
  · have hr : x - (⌊x⌋ : ℚ) ≤ y - (⌊x⌋ : ℚ) := by linarith
    simp only [roundHalfEven]
    rw [← heq]
    split_ifs <;> first | omega | (exfalso; linarith)
  · calc roundHalfEven x ≤ ⌊x⌋ + 1 := roundHalfEven_le_floor_add_one x
      _ ≤ ⌊y⌋ := by omega
      _ ≤ roundHalfEven y := roundHalfEven_ge_floor y

theorem pyRound_mono (d : ℕ) {x y : ℚ} (h : x ≤ y) : pyRound d x ≤ pyRound d y := by
  unfold pyRound
  have h1 : x * 10 ^ d ≤ y * 10 ^ d :=
    mul_le_mul_of_nonneg_right h (by positivity)
  have h2 : (roundHalfEven (x * 10 ^ d) : ℚ) ≤ (roundHalfEven (y * 10 ^ d) : ℚ) :=
    Int.cast_le.mpr (roundHalfEven_mono h1)
  exact div_le_div_of_nonneg_right h2 (by positivity)

theorem audienceScore_eq (r : ℚ) : audienceScore r = 10 * r := by
  unfold audienceScore
  split_ifs <;> · norm_num; try linarith

theorem specAudienceScore_eq (r : ℚ) : specAudienceScore r = 10 * r := by
  unfold specAudienceScore
  split_ifs <;> · norm_num; try linarith

theorem quantityWeight_pos (t : ℕ) : 0 < quantityWeight t := by
  unfold quantityWeight
  split_ifs <;> norm_num

theorem fracOf_nonneg (a t : ℕ) : 0 ≤ fracOf a t := by
  unfold fracOf
  split_ifs
  · positivity
  · exact le_rfl

theorem fracOf_mono {a b : ℕ} (t : ℕ) (h : a ≤ b) : fracOf a t ≤ fracOf b t := by
  unfold fracOf
  split_ifs with ht
  · exact div_le_div_of_nonneg_right (by exact_mod_cast h) (by positivity)
  · exact le_rfl

theorem consistencyScore_eq9 {pr nr : ℚ} (ss : List ℚ)
    (hp : pr ≥ 0.8) (hn : nr ≤ 0.1) : consistencyScore pr nr ss = 9.0 := by
  unfold consistencyScore
  rw [if_pos ⟨hp, hn⟩]

theorem consistencyScore_eq8 {pr nr : ℚ} (ss : List ℚ)
    (hc1 : ¬(pr ≥ 0.8 ∧ nr ≤ 0.1)) (hp : pr ≥ 0.7) (hn : nr ≤ 0.15) :
    consistencyScore pr nr ss = 8.0 := by
  unfold consistencyScore
  rw [if_neg hc1, if_pos ⟨hp, hn⟩]

theorem consistencyScore_eq7 {pr nr : ℚ} (ss : List ℚ)
    (hc1 : ¬(pr ≥ 0.8 ∧ nr ≤ 0.1)) (hc2 : ¬(pr ≥ 0.7 ∧ nr ≤ 0.15))
    (hp : pr ≥ 0.6) (hn : nr ≤ 0.2) : consistencyScore pr nr ss = 7.0 := by
  unfold consistencyScore
  rw [if_neg hc1, if_neg hc2, if_pos ⟨hp, hn⟩]

theorem consistencyScore_eq6 {pr nr : ℚ} (ss : List ℚ)
    (hc1 : ¬(pr ≥ 0.8 ∧ nr ≤ 0.1)) (hc2 : ¬(pr ≥ 0.7 ∧ nr ≤ 0.15))
    (hc3 : ¬(pr ≥ 0.6 ∧ nr ≤ 0.2)) (hp : pr ≥ 0.5) :
    consistencyScore pr nr ss = 6.0 := by
  unfold consistencyScore
  rw [if_neg hc1, if_neg hc2, if_neg hc3, if_pos hp]

theorem consistencyScore_eq5 {pr nr : ℚ} (ss : List ℚ)
    (hc1 : ¬(pr ≥ 0.8 ∧ nr ≤ 0.1)) (hc2 : ¬(pr ≥ 0.7 ∧ nr ≤ 0.15))
    (hc3 : ¬(pr ≥ 0.6 ∧ nr ≤ 0.2)) (hc4 : ¬pr ≥ 0.5) (hp : pr ≥ 0.4) :
    consistencyScore pr nr ss = 5.0 := by
  unfold consistencyScore
  rw [if_neg hc1, if_neg hc2, if_neg hc3, if_neg hc4, if_pos hp]

theorem consistencyScore_eqElse {pr nr : ℚ} (ss : List ℚ)
    (hc1 : ¬(pr ≥ 0.8 ∧ nr ≤ 0.1)) (hc2 : ¬(pr ≥ 0.7 ∧ nr ≤ 0.15))
    (hc3 : ¬(pr ≥ 0.6 ∧ nr ≤ 0.2)) (hc4 : ¬pr ≥ 0.5) (hc5 : ¬pr ≥ 0.4) :
    consistencyScore pr nr ss = max (4.0 - nr * 5) 1.0 := by
  unfold consistencyScore
  rw [if_neg hc1, if_neg hc2, if_neg hc3, if_neg hc4, if_neg hc5]

theorem consistencyScore_ge8 {pr nr : ℚ} (ss : List ℚ)
    (hp : pr ≥ 0.7) (hn : nr ≤ 0.15) : 8.0 ≤ consistencyScore pr nr ss := by
  unfold consistencyScore
  split_ifs with b1 b2 b3 b4 b5
  · norm_num
  · exact le_rfl
  · exact absurd ⟨hp, hn⟩ b2
  · exact absurd ⟨hp, hn⟩ b2
  · exact absurd ⟨hp, hn⟩ b2
  · exact absurd ⟨hp, hn⟩ b2

theorem consistencyScore_ge7 {pr nr : ℚ} (ss : List ℚ)
    (hp : pr ≥ 0.6) (hn : nr ≤ 0.2) : 7.0 ≤ consistencyScore pr nr ss := by
  unfold consistencyScore
  split_ifs with b1 b2 b3 b4 b5
  · norm_num
  · norm_num
  · exact le_rfl
  · exact absurd ⟨hp, hn⟩ b3
  · exact absurd ⟨hp, hn⟩ b3
  · exact absurd ⟨hp, hn⟩ b3

theorem consistencyScore_ge6 {pr nr : ℚ} (ss : List ℚ)
    (hp : pr ≥ 0.5) : 6.0 ≤ consistencyScore pr nr ss := by
  unfold consistencyScore
  split_ifs with b1 b2 b3
  · norm_num
  · norm_num
  · norm_num
  · exact le_rfl

theorem consistencyScore_ge5 {pr nr : ℚ} (ss : List ℚ)
    (hp : pr ≥ 0.4) : 5.0 ≤ consistencyScore pr nr ss := by
  unfold consistencyScore
  split_ifs with b1 b2 b3 b4
  · norm_num
  · norm_num
  · norm_num
  · norm_num
  · exact le_rfl

theorem consistencyScore_mono {p1 p2 nr : ℚ} (ss : List ℚ)
    (hnr : 0 ≤ nr) (h : p1 ≤ p2) :
    consistencyScore p1 nr ss ≤ consistencyScore p2 nr ss := by
  by_cases c1 : p1 ≥ 0.8 ∧ nr ≤ 0.1
  · rw [consistencyScore_eq9 ss c1.1 c1.2]
    exact (consistencyScore_eq9 ss (le_trans c1.1 h) c1.2).ge
  by_cases c2 : p1 ≥ 0.7 ∧ nr ≤ 0.15
  · rw [consistencyScore_eq8 ss c1 c2.1 c2.2]
    exact consistencyScore_ge8 ss (le_trans c2.1 h) c2.2
  by_cases c3 : p1 ≥ 0.6 ∧ nr ≤ 0.2
  · rw [consistencyScore_eq7 ss c1 c2 c3.1 c3.2]
    exact consistencyScore_ge7 ss (le_trans c3.1 h) c3.2
  by_cases c4 : p1 ≥ 0.5
  · rw [consistencyScore_eq6 ss c1 c2 c3 c4]
    exact consistencyScore_ge6 ss (le_trans c4 h)
  by_cases c5 : p1 ≥ 0.4
  · rw [consistencyScore_eq5 ss c1 c2 c3 c4 c5]
    exact consistencyScore_ge5 ss (le_trans c5 h)
  · rw [consistencyScore_eqElse ss c1 c2 c3 c4 c5]
    by_cases d5 : p2 ≥ 0.4
    · exact le_trans (max_le (by linarith) (by norm_num)) (consistencyScore_ge5 ss d5)
    · rw [consistencyScore_eqElse ss
        (fun hc => d5 (le_trans (by norm_num) hc.1))
        (fun hc => d5 (le_trans (by norm_num) hc.1))
        (fun hc => d5 (le_trans (by norm_num) hc.1))
        (fun hc => d5 (le_trans (by norm_num) hc))
        d5]

theorem countP_tri (l : List ℚ) :
    l.countP (fun s => decide (s > 0.1)) +
      l.countP (fun s => decide (-0.1 ≤ s ∧ s ≤ 0.1)) +
      l.countP (fun s => decide (s < -0.1)) = l.length := by
  induction l with
  | nil => rfl
  | cons a l ih =>
    simp only [List.countP_cons, List.length_cons, decide_eq_true_eq]
    rcases lt_or_le (0.1 : ℚ) a with hpos | hle
    · rw [if_pos hpos, if_neg (by rintro ⟨-, h⟩; linarith), if_neg (by intro h; linarith)]
      omega
    · rcases lt_or_le a (-0.1 : ℚ) with hneg | hge
      · rw [if_neg (by intro h; linarith), if_neg (by rintro ⟨h, -⟩; linarith), if_pos hneg]
        omega
      · rw [if_neg (by intro h; linarith), if_pos ⟨hge, hle⟩, if_neg (by intro h; linarith)]
        omega

theorem comprehensiveRating_final_eq (p n g t : ℕ) (ss : List ℚ) :
    (comprehensiveRating p n g t ss).final_rating =
      pyRound 1 (min (max ((audienceScore (fracOf p t) * 0.6 +
        consistencyScore (fracOf p t) (fracOf g t) ss * 0.25 +
        intensityScore ss * 0.15) * quantityWeight t) 0) 10) := rfl

theorem simpleSentimentAnalysis_le_one (t : Text) : simpleSentimentAnalysis t ≤ 1 := by
  simp only [simpleSentimentAnalysis]
  split_ifs
  · norm_num
  · exact max_le (min_le_right _ _) (by norm_num)
  · norm_num

theorem neg_one_le_simpleSentimentAnalysis (t : Text) : -1 ≤ simpleSentimentAnalysis t := by
  simp only [simpleSentimentAnalysis]
  split_ifs
  · norm_num
  · exact le_max_right _ _
  · norm_num

/-! Claim theorems. -/

/-- Claim C1 (amended): for every composer call with at least one sentiment
score, the final rating equals `clamp(0,10, (audience*0.6 + consistency*0.25 +
intensity*0.15) * quantity_weight)` rounded to one decimal, where the
sub-scores are the composer's internal unrounded values; the breakdown
reports those values rounded to two decimals, and re-evaluating the formula
on the rounded breakdown entries can change the result
(see `C1_breakdown_formula_fails`). -/
theorem C1_final_rating_formula (p n g t : ℕ) (ss : List ℚ) (_h : ss ≠ []) :
    (comprehensiveRating p n g t ss).final_rating =
      pyRound 1 (min (max ((audienceScore (fracOf p t) * 0.6 +
        consistencyScore (fracOf p t) (fracOf g t) ss * 0.25 +
        intensityScore ss * 0.15) * quantityWeight t) 0) 10) :=
  comprehensiveRating_final_eq p n g t ss

/-- Witness instantiating `C1_final_rating_formula` at a concrete call. -/
theorem C1_final_rating_formula_witness :
    (comprehensiveRating 1 0 0 1 [1/2]).final_rating =
      pyRound 1 (min (max ((audienceScore (fracOf 1 1) * 0.6 +
        consistencyScore (fracOf 1 1) (fracOf 0 1) [1/2] * 0.25 +
        intensityScore [1/2] * 0.15) * quantityWeight 1) 0) 10) :=
  C1_final_rating_formula 1 0 0 1 [1/2] (List.cons_ne_nil _ _)

/-- Counterexample to claim C1 as stated: at the concrete composer call with
2 positive, 4 neutral, 1 negative scores (`ssC1`, total 7), the final rating
(2.7) differs from the claimed formula re-evaluated on the sub-scores
returned in the breakdown of the same result (which gives 2.8), because the
breakdown entries are rounded to two decimals while the final rating is
computed from the unrounded values. -/
theorem C1_breakdown_formula_fails :
    (comprehensiveRating 2 4 1 7 ssC1).final_rating ≠
      pyRound 1 (min (max
        (((comprehensiveRating 2 4 1 7 ssC1).breakdown.audience_score * 0.6 +
          (comprehensiveRating 2 4 1 7 ssC1).breakdown.consistency_score * 0.25 +
          (comprehensiveRating 2 4 1 7 ssC1).breakdown.intensity_score * 0.15) *
          (comprehensiveRating 2 4 1 7 ssC1).breakdown.quantity_weight) 0) 10) := by
  norm_num [comprehensiveRating, ssC1, fracOf, audienceScore, consistencyScore,
    quantityWeight, intensityScore, sampleVariance, pyRound, roundHalfEven,
    assessConfidence, Int.fract, abs_of_nonneg, min_def, max_def]

/-- Claim C2: `analyze` always returns a value in [-1, 1]; on the empty
string and on whitespace-only text it returns exactly 0 without failing. -/
theorem C2_analyze_range_and_empty :
    (∀ t : Text, -1 ≤ analyze t ∧ analyze t ≤ 1) ∧
    analyze [] = 0 ∧
    (∀ t : Text, (stripText t).isEmpty → analyze t = 0) := by
  refine ⟨fun t => ⟨?_, ?_⟩, rfl, fun t h => ?_⟩
  · simp only [analyze]
    split_ifs
    · norm_num
    · exact neg_one_le_simpleSentimentAnalysis t
  · simp only [analyze]
    split_ifs
    · norm_num
    · exact simpleSentimentAnalysis_le_one t
  · simp [analyze, h]

/-- Witness instantiating `C2_analyze_range_and_empty` at concrete texts. -/
theorem C2_analyze_range_and_empty_witness :
    (-1 ≤ analyze ("great movie".data) ∧ analyze ("great movie".data) ≤ 1) ∧
    analyze [] = 0 ∧ analyze (" ".data) = 0 :=
  ⟨C2_analyze_range_and_empty.1 _, C2_analyze_range_and_empty.2.1,
    C2_analyze_range_and_empty.2.2 (" ".data) (by rfl)⟩

/-- Claim C3: for every review batch, the positive/neutral/negative counts of
the sentiment distribution sum to the number of reviews whose text is
non-empty (the three score bands partition the scored reviews). -/
theorem C3_distribution_sum (reviews : List Review) :
    (calculateReviewBasedRating reviews).sentiment_distribution.positive +
      (calculateReviewBasedRating reviews).sentiment_distribution.neutral +
      (calculateReviewBasedRating reviews).sentiment_distribution.negative =
      reviews.countP (fun r => !r.content.isEmpty) := by
  simp only [calculateReviewBasedRating]
  split_ifs with h1 h2
  · rw [List.isEmpty_iff.mp h1]
    rfl
  · have hfil : (reviews.filter fun r => !r.content.isEmpty) = [] :=
      List.map_eq_nil_iff.mp (List.isEmpty_iff.mp h2)
    simp [List.countP_eq_length_filter, hfil]
  · simp only []
    rw [countP_tri]
    simp [List.countP_eq_length_filter]

/-- Witness instantiating `C3_distribution_sum` at a concrete batch. -/
theorem C3_distribution_sum_witness :
    (calculateReviewBasedRating [⟨"好".data⟩]).sentiment_distribution.positive +
      (calculateReviewBasedRating [⟨"好".data⟩]).sentiment_distribution.neutral +
      (calculateReviewBasedRating [⟨"好".data⟩]).sentiment_distribution.negative =
      ([⟨"好".data⟩] : List Review).countP (fun r => !r.content.isEmpty) :=
  C3_distribution_sum [⟨"好".data⟩]

/-- Claim C4: with the negative count, total count and sentiment scores held
fixed, a larger positive count (hence a larger positive share) never
decreases the final rating. -/
theorem C4_monotone_in_positive (p1 p2 neu1 neu2 neg t : ℕ) (ss : List ℚ)
    (h : p1 ≤ p2) :
    (comprehensiveRating p1 neu1 neg t ss).final_rating ≤
      (comprehensiveRating p2 neu2 neg t ss).final_rating := by
  rw [comprehensiveRating_final_eq, comprehensiveRating_final_eq]
  apply pyRound_mono
  have hpr : fracOf p1 t ≤ fracOf p2 t := fracOf_mono t h
  have hnr : 0 ≤ fracOf neg t := fracOf_nonneg neg t
  have haud : audienceScore (fracOf p1 t) ≤ audienceScore (fracOf p2 t) := by
    rw [audienceScore_eq, audienceScore_eq]
    linarith
  have hcons := consistencyScore_mono ss hnr hpr
  have hbase : audienceScore (fracOf p1 t) * 0.6 +
      consistencyScore (fracOf p1 t) (fracOf neg t) ss * 0.25 +
      intensityScore ss * 0.15 ≤
      audienceScore (fracOf p2 t) * 0.6 +
      consistencyScore (fracOf p2 t) (fracOf neg t) ss * 0.25 +
      intensityScore ss * 0.15 := by linarith
  have hmul := mul_le_mul_of_nonneg_right hbase (quantityWeight_pos t).le
  exact min_le_min (max_le_max hmul le_rfl) le_rfl

/-- Witness instantiating `C4_monotone_in_positive` at a concrete pair. -/
theorem C4_monotone_in_positive_witness :
    (comprehensiveRating 1 2 1 4 [1/2, 0, -1/2, 1/4]).final_rating ≤
      (comprehensiveRating 2 1 1 4 [1/2, 0, -1/2, 1/4]).final_rating :=
  C4_monotone_in_positive 1 2 2 1 1 4 [1/2, 0, -1/2, 1/4] (by norm_num)

/-- Counterexample to claim C5 as stated: in the 60-review scenario with 48
positive (share 0.8) and 6 negative (share 0.1), the breakdown's consistency
score is not 8.0 — the code's first consistency branch
(`positive_ratio >= 0.8 and negative_ratio <= 0.1`) fires at exactly these
shares and yields 9.0. -/
theorem C5_consistency_not_eight :
    (comprehensiveRating 48 6 6 60 ssC5).breakdown.consistency_score ≠ 8.0 := by
  norm_num [comprehensiveRating, fracOf, consistencyScore, pyRound, roundHalfEven]

/-- Claim C5 (amended): in the 60-review scenario with 48 positive and 6
negative scored reviews, the breakdown's audience score equals 8.0 (inside
the claimed band [8.0, 9.0)), the quantity weight equals 0.95, and the
consistency score equals 9.0 (not 8.0: both band edges of the first
consistency branch are inclusive and fire at shares 0.8 and 0.1). -/
theorem C5_scenario_values (ss : List ℚ) :
    (comprehensiveRating 48 6 6 60 ss).breakdown.audience_score = 8.0 ∧
    (comprehensiveRating 48 6 6 60 ss).breakdown.consistency_score = 9.0 ∧
    (comprehensiveRating 48 6 6 60 ss).breakdown.quantity_weight = 0.95 := by
  refine ⟨?_, ?_, ?_⟩ <;>
    norm_num [comprehensiveRating, fracOf, audienceScore, consistencyScore,
      quantityWeight, pyRound, roundHalfEven]

/-- Witness instantiating `C5_scenario_values` at a concrete score list. -/
theorem C5_scenario_values_witness :
    (comprehensiveRating 48 6 6 60 [1/2]).breakdown.audience_score = 8.0 ∧
    (comprehensiveRating 48 6 6 60 [1/2]).breakdown.consistency_score = 9.0 ∧
    (comprehensiveRating 48 6 6 60 [1/2]).breakdown.quantity_weight = 0.95 :=
  C5_scenario_values [1/2]

/-- Claim C6: on an empty review batch the review-based rating is the
zero/"no data" result: rating 0.0, zero distribution, empty breakdown and
confidence level `无数据`, with no sub-formula involved. -/
theorem C6_empty_batch :
    calculateReviewBasedRating [] =
      { rating := 0, review_count := 0, sentiment_distribution := ⟨0, 0, 0⟩,
        average_sentiment := 0, rating_breakdown := none,
        confidence_level := "无数据" } := rfl

/-- Claim C7: the audience score is exactly the spec's piecewise-linear
function (anchors 0.5/0.6/0.7/0.8/0.9 with base scores 5/6/7/8/9 plus 10
times the excess within the band, and `share*10` below 0.5); in particular
share 0.9 yields 9.0 and share 0.5 yields 5.0. -/
theorem C7_audience_piecewise :
    (∀ r : ℚ, audienceScore r = specAudienceScore r) ∧
    audienceScore 0.9 = 9.0 ∧ audienceScore 0.5 = 5.0 := by
  refine ⟨fun r => ?_, by norm_num [audienceScore], by norm_num [audienceScore]⟩
  rw [audienceScore_eq, specAudienceScore_eq]

/-- Witness instantiating `C7_audience_piecewise` at a concrete share. -/
theorem C7_audience_piecewise_witness :
    audienceScore (3/4) = specAudienceScore (3/4) ∧
    audienceScore 0.9 = 9.0 ∧ audienceScore 0.5 = 5.0 :=
  ⟨C7_audience_piecewise.1 (3/4), C7_audience_piecewise.2.1,
    C7_audience_piecewise.2.2⟩

/-- Claim C8: the quantity weight is exactly the spec's step function
(≥100 → 1.0, ≥50 → 0.95, ≥20 → 0.9, ≥10 → 0.85, ≥5 → 0.8, else 0.7); in
particular 100 reviews give weight 1.0 and 99 give 0.95. -/
theorem C8_quantity_weight_step :
    (∀ n : ℕ, quantityWeight n = specQuantityWeight n) ∧
    quantityWeight 100 = 1.0 ∧ quantityWeight 99 = 0.95 := by
  refine ⟨fun n => rfl, ?_, ?_⟩ <;> norm_num [quantityWeight]

/-- Witness instantiating `C8_quantity_weight_step` at a concrete count. -/
theorem C8_quantity_weight_step_witness :
    quantityWeight 42 = specQuantityWeight 42 ∧
    quantityWeight 100 = 1.0 ∧ quantityWeight 99 = 0.95 :=
  ⟨C8_quantity_weight_step.1 42, C8_quantity_weight_step.2.1,
    C8_quantity_weight_step.2.2⟩

/-- Claim C9: the composer is a pure function of its five inputs — two calls
on componentwise-equal inputs return equal results in every field, including
the breakdown and the confidence label. -/
theorem C9_deterministic (p neu neg t : ℕ) (ss : List ℚ)
    (p' neu' neg' t' : ℕ) (ss' : List ℚ)
    (hp : p = p') (hneu : neu = neu') (hneg : neg = neg') (ht : t = t')
    (hss : ss = ss') :
    comprehensiveRating p neu neg t ss = comprehensiveRating p' neu' neg' t' ss' := by
  subst hp hneu hneg ht hss
  rfl

/-- Witness instantiating `C9_deterministic` at a concrete call. -/
theorem C9_deterministic_witness :
    comprehensiveRating 2 1 1 4 [1/2, 0, -1/2, 1/4] =
      comprehensiveRating 2 1 1 4 [1/2, 0, -1/2, 1/4] :=
  C9_deterministic 2 1 1 4 [1/2, 0, -1/2, 1/4] 2 1 1 4 [1/2, 0, -1/2, 1/4]
    rfl rfl rfl rfl rfl

/-- Claim C10: on a non-empty batch whose reviews all have empty (or missing)
text, the review-based rating returns rating 0.0, a zero distribution,
average sentiment 0.0, an empty breakdown, the full batch size as
review_count, and the confidence label `无情感数据`, which lies outside the
spec's confidence enumeration. -/
theorem C10_all_empty_texts (reviews : List Review) (hne : reviews ≠ [])
    (hall : ∀ r ∈ reviews, r.content = []) :
    calculateReviewBasedRating reviews =
      { rating := 0, review_count := reviews.length,
        sentiment_distribution := ⟨0, 0, 0⟩, average_sentiment := 0,
        rating_breakdown := none, confidence_level := "无情感数据" } ∧
    "无情感数据" ∉ ["低", "中低", "中等", "中高", "高", "无数据"] := by
  constructor
  · have h1 : reviews.isEmpty = false := by
      cases reviews with
      | nil => exact absurd rfl hne
      | cons a l => rfl
    have hfil : (reviews.filter fun r => !r.content.isEmpty) = [] := by
      rw [List.filter_eq_nil_iff]
      intro r hr
      simp [hall r hr]
    simp [calculateReviewBasedRating, h1, hfil]
  · decide

/-- Witness instantiating `C10_all_empty_texts` at a one-review batch. -/
theorem C10_all_empty_texts_witness :
    calculateReviewBasedRating [⟨[]⟩] =
      { rating := 0, review_count := 1,
        sentiment_distribution := ⟨0, 0, 0⟩, average_sentiment := 0,
        rating_breakdown := none, confidence_level := "无情感数据" } ∧
    "无情感数据" ∉ ["低", "中低", "中等", "中高", "高", "无数据"] := by
  have h := C10_all_empty_texts [⟨[]⟩] (List.cons_ne_nil _ _)
    (by intro r hr; simp at hr; subst hr; rfl)
  simpa using h

end VR
